import Mathlib

/-!
Verification of the element-resolution and synchronization layer of the
Selenium web steps in features/steps/web_steps.py.

The embedding below is shallow: each step function of the source file is
translated into a Lean function over an explicit DOM model.  Rendering over
time is modelled as a trace, a function from poll ticks (the instants at
which WebDriverWait re-evaluates its condition, tick 0 being the instant the
step is invoked) to DOM snapshots.  A step that contains no WebDriverWait
consults only the snapshot at tick 0.  Python string containment (the in
operator), str.lower and str.replace are modelled on Lean strings, which
agrees with Python on the ASCII identifiers and texts used by the steps.
-/

/-- Python substring containment: pyIn sub hay models the Python expression
sub in hay on strings. -/
def pyIn (sub hay : String) : Bool :=
  hay.toList.tails.any (fun t => sub.toList.isPrefixOf t)

/-- Python str.lower, applied character by character. -/
def pyLower (s : String) : String := String.mk (s.toList.map Char.toLower)

/-- Python str.replace with a single-character pattern and replacement. -/
def pyReplaceChar (a b : Char) (s : String) : String :=
  String.mk (s.toList.map (fun c => if c = a then b else c))

/-- The id prefix for input fields, ID_PREFIX = "product_" in the source. -/
def ID_PREFIX : String := "product_"

/-- Field-name resolution, as computed at each field step of the source:
element_id = ID_PREFIX + element_name.lower().replace(" ", "_"). -/
def fieldId (name : String) : String :=
  ID_PREFIX ++ pyReplaceChar ' ' '_' (pyLower name)

/-- Button-name resolution from the press-button step of the source:
button_id = button.lower().replace(" ", "-") + "-btn". -/
def buttonId (button : String) : String :=
  pyReplaceChar ' ' '-' (pyLower button) ++ "-btn"

/-- A DOM element as seen through the Selenium API surface the steps use:
its visible text, its value attribute, and the displayed and enabled flags
that element_to_be_clickable consults. -/
structure Element where
  text : String
  value : String
  displayed : Bool
  enabled : Bool
deriving Repr, DecidableEq

/-- A DOM snapshot: the document title, the text of the body element, and
the lookup that find_element(s)(By.ID, i) performs.  byId returns none when
no element carries the id (find_elements returns an empty list there). -/
structure Dom where
  title : String
  bodyText : String
  byId : String → Option Element

/-- Errors a step can surface to the runner: NoSuchElementException from an
immediate find_element, TimeoutException from WebDriverWait, AssertionError
from a failed assert, and AttributeError from reading an attribute that was
never set on the behave context (context.clipboard before any copy). -/
inductive StepError where
  | noSuchElement
  | timeout
  | assertionFailed
  | attributeError
deriving Repr, DecidableEq

/-- WebDriverWait(driver, w).until(p) over a rendering trace: the condition
is evaluated at poll ticks 0, 1, ..., w and the first tick at which it holds
is returned; none models a TimeoutException after the budget elapses. -/
def waitUntil (w : Nat) (trace : Nat → Dom) (p : Dom → Bool) : Option Nat :=
  (List.range (w + 1)).find? (fun t => p (trace t))

/-- expected_conditions.text_to_be_present_in_element((By.ID, i), msg): the
element is looked up afresh each poll; a missing element makes the condition
false for that tick (the wait ignores NoSuchElementException). -/
def textPresentInElement (d : Dom) (i msg : String) : Bool :=
  match d.byId i with
  | some e => pyIn msg e.text
  | none => false

/-- expected_conditions.element_to_be_clickable((By.ID, i)): the element
exists, is displayed and is enabled. -/
def isClickableAt (d : Dom) (i : String) : Bool :=
  match d.byId i with
  | some e => e.displayed && e.enabled
  | none => false

/-- The candidate scan shared by the message and results steps: the first id
in the list for which find_elements returns a non-empty list. -/
def firstMatchingId (d : Dom) (ids : List String) : Option String :=
  ids.find? (fun i => (d.byId i).isSome)

/-- The candidate ids of the message step, in source order. -/
def possibleMessageIds : List String := ["flash_message", "message", "flash"]

/-- The candidate ids of the results steps, in source order. -/
def possibleResultIds : List String := ["search_results", "results"]

/-- The container a results step ends up reading: a named element or the
body tag. -/
inductive Container where
  | elem (i : String)
  | body
deriving Repr, DecidableEq

/-- Container resolution of the results steps: scan possibleResultIds once,
first match wins, and fall back to find_element(By.TAG_NAME, "body") when no
candidate matched. -/
def resolveResultsContainer (d : Dom) : Container :=
  match firstMatchingId d possibleResultIds with
  | some rid => Container.elem rid
  | none => Container.body

/-- The text of a results container in a given snapshot; none when a named
container has disappeared from the document. -/
def containerText (d : Dom) : Container → Option String
  | Container.elem i => (d.byId i).map (fun e => e.text)
  | Container.body => some d.bodyText

/-- The step I should see the message "{message}": one scan of the candidate
ids at the invocation instant (tick 0); if some candidate exists the step
locks onto it and polls text_to_be_present_in_element on it within the
budget; if no candidate exists the assert found fails at once. -/
def assertMessage (w : Nat) (trace : Nat → Dom) (message : String) :
    Except StepError Unit :=
  match firstMatchingId (trace 0) possibleMessageIds with
  | some msgId =>
      match waitUntil w trace (fun d => textPresentInElement d msgId message) with
      | some _ => Except.ok ()
      | none => Except.error StepError.timeout
  | none => Except.error StepError.assertionFailed

/-- The step I should see "{text}" in the results: one scan of the candidate
ids at tick 0 with body fallback, then a polled wait for containment of the
text in the locked container. -/
def assertInResults (w : Nat) (trace : Nat → Dom) (text : String) :
    Except StepError Unit :=
  let c := resolveResultsContainer (trace 0)
  match waitUntil w trace (fun d =>
      match containerText d c with
      | some s => pyIn text s
      | none => false) with
  | some _ => Except.ok ()
  | none => Except.error StepError.timeout

/-- The step I should not see "{text}" in the results: resolve the container
and assert non-containment against one snapshot, with no WebDriverWait. -/
def assertNotInResults (d : Dom) (text : String) : Except StepError Unit :=
  let c := resolveResultsContainer d
  match containerText d c with
  | some s => if pyIn text s then Except.error StepError.assertionFailed else Except.ok ()
  | none => Except.error StepError.noSuchElement

/-- The step I should not see "{text_string}": read the body text of one
snapshot and assert non-containment, with no WebDriverWait. -/
def assertNotSee (d : Dom) (text : String) : Except StepError Unit :=
  if pyIn text d.bodyText then Except.error StepError.assertionFailed else Except.ok ()

/-- The negative body check as invoked against a rendering trace: the source
performs a single immediate find_element and assert, so only the snapshot at
tick 0 is consulted and the wait budget is never read. -/
def assertNotSeeStep (w : Nat) (trace : Nat → Dom) (text : String) :
    Except StepError Unit :=
  assertNotSee (trace 0) text

/-- The negative results check as invoked against a rendering trace: the
source performs one scan and one assert with no WebDriverWait, so only the
snapshot at tick 0 is consulted and the wait budget is never read. -/
def assertNotInResultsStep (w : Nat) (trace : Nat → Dom) (text : String) :
    Except StepError Unit :=
  assertNotInResults (trace 0) text

/-- The step I press the "{button}" button: resolve the button id, wait for
element_to_be_clickable within the budget, then click.  The result records
the poll tick at which the click fired and the id that was clicked. -/
def pressButtonStep (w : Nat) (trace : Nat → Dom) (button : String) :
    Except StepError (Nat × String) :=
  match waitUntil w trace (fun d => isClickableAt d (buttonId button)) with
  | some t => Except.ok (t, buttonId button)
  | none => Except.error StepError.timeout

/-- Scenario-scoped state carried by the behave context: the current DOM and
the clipboard attribute, which is absent until the first copy step sets it. -/
structure ScnState where
  dom : Dom
  clipboard : Option String

/-- Outcome of a When step: the scenario state after the step ran, plus the
error it raised, if any.  The state is kept even on error because a step can
mutate the DOM before failing. -/
structure StepOut where
  state : ScnState
  err : Option StepError

/-- Update the value attribute of the element with the given id, if any. -/
def updValue (d : Dom) (i : String) (f : String → String) : Dom :=
  { d with byId := fun j =>
      if j = i then (d.byId j).map (fun e => { e with value := f e.value })
      else d.byId j }

/-- element.clear(): the value becomes the empty string. -/
def clearField (d : Dom) (i : String) : Dom := updValue d i (fun _ => "")

/-- element.send_keys(s): the keystrokes are appended to the current value. -/
def sendKeys (d : Dom) (i s : String) : Dom := updValue d i (fun v => v ++ s)

/-- The value attribute of the element with the given id, if present. -/
def valueAt (d : Dom) (i : String) : Option String :=
  (d.byId i).map (fun e => e.value)

/-- The step I set the "{element_name}" to "{text_string}": an immediate
find_element (no WebDriverWait in the source), then clear, then send_keys.
A missing field raises NoSuchElementException at once. -/
def setFieldStep (s : ScnState) (name text : String) : StepOut :=
  let i := fieldId name
  match s.dom.byId i with
  | none => { state := s, err := some StepError.noSuchElement }
  | some _ =>
      { state := { s with dom := sendKeys (clearField s.dom i) i text }, err := none }

/-- The set-field step as invoked against a rendering trace: the source has
no WebDriverWait here, so only the snapshot at tick 0 is consulted; a field
that never appears makes the step fail at the invocation instant. -/
def setFieldStepAt (trace : Nat → Dom) (clip : Option String)
    (name text : String) : StepOut :=
  setFieldStep { dom := trace 0, clipboard := clip } name text

/-- The step I copy the "{element_name}" field: wait for presence of the
field, then store its value attribute in context.clipboard.  The DOM is
taken as stable for the duration of the step, so the presence wait resolves
at once when the field exists and times out when it does not. -/
def copyFieldStep (s : ScnState) (name : String) : StepOut :=
  let i := fieldId name
  match s.dom.byId i with
  | none => { state := s, err := some StepError.timeout }
  | some e => { state := { s with clipboard := some e.value }, err := none }

/-- The step I paste the "{element_name}" field: wait for presence, then
element.clear(), then element.send_keys(context.clipboard).  The clipboard
attribute is read only when the send_keys argument is evaluated, after the
clear has already run; when it was never set, behave raises AttributeError
at that point, leaving the field cleared. -/
def pasteFieldStep (s : ScnState) (name : String) : StepOut :=
  let i := fieldId name
  match s.dom.byId i with
  | none => { state := s, err := some StepError.timeout }
  | some _ =>
      let cleared : ScnState := { s with dom := clearField s.dom i }
      match s.clipboard with
      | none => { state := cleared, err := some StepError.attributeError }
      | some v =>
          { state := { cleared with dom := sendKeys cleared.dom i v }, err := none }

/-! Concrete fixtures used by counterexamples and witnesses. -/

/-- A snapshot with no elements at all and an empty body. -/
def emptyDom : Dom := { title := "", bodyText := "", byId := fun _ => none }

/-- A visible element showing the given text. -/
def elemWithText (t : String) : Element :=
  { text := t, value := "", displayed := true, enabled := true }

/-- A snapshot whose only element is a flash_message container with the
given text. -/
def flashDom (t : String) : Dom :=
  { title := "", bodyText := "",
    byId := fun i => if i = "flash_message" then some (elemWithText t) else none }

/-- The trace of the scenario named in the claim: the message container is
absent at ticks 0, 1, 2 (the first two seconds) and present with the
expected text from tick 3 on. -/
def lateMessageTrace : Nat → Dom :=
  fun t => if t < 3 then emptyDom else flashDom "Item created"

/-- A trace in which the message container shows the text from the start. -/
def constFlashTrace : Nat → Dom := fun _ => flashDom "Item created"

/-- A snapshot whose body holds the message text but which has none of the
named message or results containers. -/
def bodyOnlyDom : Dom := { title := "", bodyText := "Item created", byId := fun _ => none }

/-- A trace with no named results container ever; the body text gains the
searched word only from tick 3 on. -/
def resultsLateBodyTrace : Nat → Dom :=
  fun t =>
    if t < 3 then emptyDom
    else { title := "", bodyText := "Widget", byId := fun _ => none }

/-- The constant empty trace. -/
def constEmptyTrace : Nat → Dom := fun _ => emptyDom

/-- A trace whose clear-btn element is always present and displayed but
never enabled. -/
def disabledButtonTrace : Nat → Dom :=
  fun _ =>
    { title := "", bodyText := "",
      byId := fun i =>
        if i = "clear-btn" then
          some { text := "Clear", value := "", displayed := true, enabled := false }
        else none }

/-- A trace whose clear-btn element is always clickable. -/
def clickableButtonTrace : Nat → Dom :=
  fun _ =>
    { title := "", bodyText := "",
      byId := fun i =>
        if i = "clear-btn" then
          some { text := "Clear", value := "", displayed := true, enabled := true }
        else none }

/-- A snapshot with a search_results container present. -/
def searchResultsDom : Dom :=
  { title := "", bodyText := "",
    byId := fun i => if i = "search_results" then some (elemWithText "rows") else none }

/-- The input element used by the paste fixtures: value Widget. -/
def elem6 : Element := { text := "", value := "Widget", displayed := true, enabled := true }

/-- A snapshot with a single product_name field holding elem6. -/
def nameFieldDom : Dom :=
  { title := "", bodyText := "",
    byId := fun i => if i = "product_name" then some elem6 else none }

/-- Scenario state for the paste fixtures: the clipboard was never set. -/
def s6 : ScnState := { dom := nameFieldDom, clipboard := none }

/-- The element initially held by the Name field of the copy-paste run. -/
def elem7 : Element := { text := "", value := "V1", displayed := true, enabled := true }

/-- A snapshot with a product_name field holding V1 and an empty
product_sku field. -/
def dom7 : Dom :=
  { title := "", bodyText := "",
    byId := fun i =>
      if i = "product_name" then some elem7
      else if i = "product_sku" then
        some { text := "", value := "", displayed := true, enabled := true }
      else none }

/-- Scenario state at the start of the copy-paste run. -/
def s7 : ScnState := { dom := dom7, clipboard := none }

/-- State after copying the Name field in the copy-paste run. -/
def s7a : ScnState := (copyFieldStep s7 "Name").state

/-- State after then overwriting the Name field with V2. -/
def s7b : ScnState := (setFieldStep s7a "Name" "V2").state

/-! Helper lemmas. -/

/-- The polled wait succeeds exactly when the condition holds at some poll
tick within the budget. -/
theorem waitUntil_isSome_iff (w : Nat) (trace : Nat → Dom) (p : Dom → Bool) :
    (waitUntil w trace p).isSome ↔ ∃ t, t ≤ w ∧ p (trace t) = true := by
  unfold waitUntil
  rw [List.find?_isSome]
  constructor
  · rintro ⟨t, ht, hp⟩
    exact ⟨t, Nat.lt_succ_iff.mp (List.mem_range.mp ht), hp⟩
  · rintro ⟨t, ht, hp⟩
    exact ⟨t, List.mem_range.mpr (Nat.lt_succ_iff.mpr ht), hp⟩

/-- A tick returned by the polled wait lies within the budget and satisfies
the condition there. -/
theorem waitUntil_some (w : Nat) (trace : Nat → Dom) (p : Dom → Bool) (t : Nat)
    (h : waitUntil w trace p = some t) : t ≤ w ∧ p (trace t) = true := by
  unfold waitUntil at h
  refine ⟨?_, by simpa using List.find?_some h⟩
  have := List.mem_of_find?_eq_some h
  exact Nat.lt_succ_iff.mp (List.mem_range.mp this)

/-- Clearing then typing into a present field leaves exactly the typed
value in it. -/
theorem valueAt_sendKeys_clearField (d : Dom) (i v : String) (e : Element)
    (h : d.byId i = some e) :
    valueAt (sendKeys (clearField d i) i v) i = some v := by
  simp [valueAt, sendKeys, clearField, updValue, h]

/-! Claim theorems. -/

/-- Claim C3: for every field name, the resolved locator is the fixed prefix
followed by the lowercased name with spaces turned into underscores; the
resolution is a pure total function, hence deterministic and stable across
repeated calls, and Product Name resolves to product_product_name. -/
theorem claim_C3 :
    (∀ n : String, fieldId n = ID_PREFIX ++ pyReplaceChar ' ' '_' (pyLower n)) ∧
    fieldId "Product Name" = "product_product_name" :=
  ⟨fun _ => rfl, by decide⟩

/-- Claim C4: for every button label, the resolved locator is the lowercased
label with spaces turned into hyphens, suffixed with -btn; Clear resolves to
clear-btn. -/
theorem claim_C4 :
    (∀ b : String, buttonId b = pyReplaceChar ' ' '-' (pyLower b) ++ "-btn") ∧
    buttonId "Clear" = "clear-btn" :=
  ⟨fun _ => rfl, by decide⟩

/-- When no message candidate exists at the invocation instant, the message
step fails at once with the assert in the source. -/
theorem assertMessage_scan_none (w : Nat) (trace : Nat → Dom) (m : String)
    (h : firstMatchingId (trace 0) possibleMessageIds = none) :
    assertMessage w trace m = Except.error StepError.assertionFailed := by
  unfold assertMessage
  rw [h]

/-- Once a candidate is locked at the invocation instant, the message step
reduces to the polled text wait on that candidate. -/
theorem assertMessage_scan_some (w : Nat) (trace : Nat → Dom) (m c : String)
    (h : firstMatchingId (trace 0) possibleMessageIds = some c) :
    assertMessage w trace m =
      match waitUntil w trace (fun d => textPresentInElement d c m) with
      | some _ => Except.ok ()
      | none => Except.error StepError.timeout := by
  unfold assertMessage
  rw [h]

/-- With a candidate locked at tick 0, the message step succeeds exactly
when the text is observed in that candidate at some tick within budget. -/
theorem assertMessage_ok_iff (w : Nat) (trace : Nat → Dom) (m c : String)
    (h : firstMatchingId (trace 0) possibleMessageIds = some c) :
    assertMessage w trace m = Except.ok () ↔
      ∃ t, t ≤ w ∧ textPresentInElement (trace t) c m = true := by
  rw [assertMessage_scan_some w trace m c h]
  cases hwu : waitUntil w trace (fun d => textPresentInElement d c m) with
  | some t =>
    have hts := waitUntil_some w trace _ t hwu
    exact ⟨fun _ => ⟨t, hts.1, hts.2⟩, fun _ => rfl⟩
  | none =>
    constructor
    · intro hok
      exact Except.noConfusion hok
    · rintro ⟨t, ht, hp⟩
      have hs : (waitUntil w trace (fun d => textPresentInElement d c m)).isSome = true :=
        (waitUntil_isSome_iff w trace (fun d => textPresentInElement d c m)).mpr ⟨t, ht, hp⟩
      rw [hwu] at hs
      cases hs

/-- Claim C1 counterexample: with the message container absent for the first
two seconds, appearing with the expected text at three seconds, and a
five-second budget, the message step fails immediately instead of passing,
because the candidate-existence scan is not retried. -/
theorem claim_C1_counterexample :
    assertMessage 5 lateMessageTrace "Item created" = Except.error StepError.assertionFailed ∧
    textPresentInElement (lateMessageTrace 3) "flash_message" "Item created" = true := by
  exact ⟨rfl, rfl⟩

/-- Claim C1 (amended): the candidate-existence scan runs exactly once, at
the invocation instant; if no candidate matches then, the step fails at once
regardless of later rendering, and if a candidate matches, the step locks
onto it and succeeds exactly when its text contains the message at some poll
tick within the budget.  In particular the absent-for-2s-appearing-at-3s
scenario fails rather than passes. -/
theorem claim_C1 :
    (∀ (w : Nat) (trace : Nat → Dom) (m : String),
        firstMatchingId (trace 0) possibleMessageIds = none →
        assertMessage w trace m = Except.error StepError.assertionFailed) ∧
    (∀ (w : Nat) (trace : Nat → Dom) (m c : String),
        firstMatchingId (trace 0) possibleMessageIds = some c →
        (assertMessage w trace m = Except.ok () ↔
          ∃ t, t ≤ w ∧ textPresentInElement (trace t) c m = true)) :=
  ⟨fun w trace m h => assertMessage_scan_none w trace m h,
   fun w trace m c h => assertMessage_ok_iff w trace m c h⟩

/-- Claim C1 witness: at a trace whose flash_message container shows the
text from the start, the locked-candidate characterization is obtained from
the theorem at concrete inputs. -/
theorem claim_C1_witness :
    firstMatchingId (constFlashTrace 0) possibleMessageIds = some "flash_message" ∧
    (assertMessage 5 constFlashTrace "Item created" = Except.ok () ↔
      ∃ t, t ≤ 5 ∧ textPresentInElement (constFlashTrace t) "flash_message" "Item created" = true) :=
  ⟨rfl, claim_C1.2 5 constFlashTrace "Item created" "flash_message" rfl⟩

/-- Claim C2 counterexample: on a document whose body holds the expected
text but which has none of the named message containers, the message step
hard-fails, so the document body is not a catch-all candidate for the
message role. -/
theorem claim_C2_counterexample :
    assertMessage 5 (fun _ => bodyOnlyDom) "Item created" = Except.error StepError.assertionFailed ∧
    pyIn "Item created" bodyOnlyDom.bodyText = true := by
  exact ⟨rfl, rfl⟩

/-- Claim C2 (amended): for the results role the candidates search_results
then results are tried in order, first match wins, and the document body is
the final catch-all, so results resolution never hard-fails; for the message
role the candidates flash_message, message, flash are tried in order and the
first match wins, but there is no body catch-all: when none of the named
containers exists the message step hard-fails. -/
theorem claim_C2 :
    (∀ d : Dom,
      ((d.byId "search_results").isSome = true →
        resolveResultsContainer d = Container.elem "search_results") ∧
      (d.byId "search_results" = none → (d.byId "results").isSome = true →
        resolveResultsContainer d = Container.elem "results") ∧
      (d.byId "search_results" = none → d.byId "results" = none →
        resolveResultsContainer d = Container.body)) ∧
    (∀ d : Dom,
      ((d.byId "flash_message").isSome = true →
        firstMatchingId d possibleMessageIds = some "flash_message") ∧
      (d.byId "flash_message" = none → (d.byId "message").isSome = true →
        firstMatchingId d possibleMessageIds = some "message") ∧
      (d.byId "flash_message" = none → d.byId "message" = none →
        (d.byId "flash").isSome = true →
        firstMatchingId d possibleMessageIds = some "flash")) ∧
    (∀ (w : Nat) (trace : Nat → Dom) (m : String),
      (trace 0).byId "flash_message" = none → (trace 0).byId "message" = none →
      (trace 0).byId "flash" = none →
      assertMessage w trace m = Except.error StepError.assertionFailed) := by
  refine ⟨fun d => ⟨?_, ?_, ?_⟩, fun d => ⟨?_, ?_, ?_⟩, ?_⟩
  · intro h
    simp [resolveResultsContainer, firstMatchingId, possibleResultIds, List.find?, h]
  · intro h1 h2
    simp [resolveResultsContainer, firstMatchingId, possibleResultIds, List.find?, h1, h2]
  · intro h1 h2
    simp [resolveResultsContainer, firstMatchingId, possibleResultIds, List.find?, h1, h2]
  · intro h
    simp [firstMatchingId, possibleMessageIds, List.find?, h]
  · intro h1 h2
    simp [firstMatchingId, possibleMessageIds, List.find?, h1, h2]
  · intro h1 h2 h3
    simp [firstMatchingId, possibleMessageIds, List.find?, h1, h2, h3]
  · intro w trace m h1 h2 h3
    apply assertMessage_scan_none
    simp [firstMatchingId, possibleMessageIds, List.find?, h1, h2, h3]

/-- Claim C2 witness: on a document with a search_results container, the
resolution picks it, by the theorem at concrete inputs. -/
theorem claim_C2_witness :
    (searchResultsDom.byId "search_results").isSome = true ∧
    resolveResultsContainer searchResultsDom = Container.elem "search_results" :=
  ⟨rfl, (claim_C2.1 searchResultsDom).1 rfl⟩

/-- Claim C5: the negative-presence checks (should-not-see against the body
and should-not-see-in-results) read only the snapshot at the invocation
instant, independently of the wait budget and of any later rendering, while
the positive containment check is polled: on a trace whose body gains the
text only at tick 3, the polled positive check passes although the text is
absent at tick 0. -/
theorem claim_C5 :
    (∀ (w1 w2 : Nat) (t1 t2 : Nat → Dom) (s : String), t1 0 = t2 0 →
        assertNotSeeStep w1 t1 s = assertNotSeeStep w2 t2 s ∧
        assertNotInResultsStep w1 t1 s = assertNotInResultsStep w2 t2 s) ∧
    (assertInResults 5 resultsLateBodyTrace "Widget" = Except.ok () ∧
      pyIn "Widget" (resultsLateBodyTrace 0).bodyText = false) := by
  constructor
  · intro w1 w2 t1 t2 s h
    constructor
    · unfold assertNotSeeStep
      rw [h]
    · unfold assertNotInResultsStep
      rw [h]
  · exact ⟨rfl, rfl⟩

/-- Claim C5 witness: two traces that agree at tick 0 but differ later give
the same negative body check under different budgets, by the theorem at
concrete inputs. -/
theorem claim_C5_witness :
    constEmptyTrace 0 = lateMessageTrace 0 ∧
    assertNotSeeStep 1 constEmptyTrace "Widget" = assertNotSeeStep 9 lateMessageTrace "Widget" :=
  ⟨rfl, (claim_C5.1 1 9 constEmptyTrace lateMessageTrace "Widget" rfl).1⟩

/-- Claim C6: pasting with a clipboard that was never written always raises
an error, and when the target field is present the error is the
AttributeError from reading the unset context attribute; the step never
succeeds by silently writing an empty or placeholder value. -/
theorem claim_C6 :
    ∀ (s : ScnState) (name : String), s.clipboard = none →
      (pasteFieldStep s name).err ≠ none ∧
      (∀ e : Element, s.dom.byId (fieldId name) = some e →
        (pasteFieldStep s name).err = some StepError.attributeError) := by
  intro s name hclip
  constructor
  · cases hb : s.dom.byId (fieldId name) with
    | none => simp [pasteFieldStep, hb]
    | some e => simp [pasteFieldStep, hb, hclip]
  · intro e hb
    simp [pasteFieldStep, hb, hclip]

/-- Claim C6 witness: pasting the Name field in a scenario whose clipboard
was never written raises an error, by the theorem at concrete inputs. -/
theorem claim_C6_witness :
    s6.clipboard = none ∧
    ((pasteFieldStep s6 "Name").err ≠ none ∧
      (∀ e : Element, s6.dom.byId (fieldId "Name") = some e →
        (pasteFieldStep s6 "Name").err = some StepError.attributeError)) :=
  ⟨rfl, claim_C6 s6 "Name" rfl⟩

/-- A paste that succeeds writes exactly the clipboard value into the
target field. -/
theorem pasteFieldStep_ok_value (s : ScnState) (y v : String)
    (hclip : s.clipboard = some v)
    (hok : (pasteFieldStep s y).err = none) :
    valueAt (pasteFieldStep s y).state.dom (fieldId y) = some v := by
  cases hy : s.dom.byId (fieldId y) with
  | none => simp [pasteFieldStep, hy] at hok
  | some ey =>
    simp only [pasteFieldStep, hy, hclip]
    exact valueAt_sendKeys_clearField s.dom (fieldId y) v ey hy

/-- Claim C7: copying field X, then overwriting X, then pasting into field Y
leaves Y holding exactly the value X held at the moment of the copy. -/
theorem claim_C7 :
    ∀ (s : ScnState) (x v2 y : String) (ex : Element) (s1 s2 : ScnState),
      s.dom.byId (fieldId x) = some ex →
      copyFieldStep s x = { state := s1, err := none } →
      setFieldStep s1 x v2 = { state := s2, err := none } →
      (pasteFieldStep s2 y).err = none →
      valueAt (pasteFieldStep s2 y).state.dom (fieldId y) = some ex.value := by
  intro s x v2 y ex s1 s2 hx hcopy hset hpaste
  simp only [copyFieldStep, hx] at hcopy
  injection hcopy with hstate herr
  subst hstate
  simp only [setFieldStep, hx] at hset
  injection hset with hstate2 herr2
  subst hstate2
  exact pasteFieldStep_ok_value _ y ex.value rfl hpaste

/-- Claim C7 witness: the copy-overwrite-paste run on the concrete fixture
lands the copy-time value V1 in the Sku field, by the theorem at concrete
inputs. -/
theorem claim_C7_witness :
    s7.dom.byId (fieldId "Name") = some elem7 ∧
    copyFieldStep s7 "Name" = { state := s7a, err := none } ∧
    setFieldStep s7a "Name" "V2" = { state := s7b, err := none } ∧
    (pasteFieldStep s7b "Sku").err = none ∧
    valueAt (pasteFieldStep s7b "Sku").state.dom (fieldId "Sku") = some elem7.value :=
  ⟨rfl, rfl, rfl, rfl,
    claim_C7 s7 "Name" "V2" "Sku" elem7 s7a s7b rfl rfl rfl rfl⟩

/-- Claim C8: whenever the press-button step clicks, the clicked element is
the resolved button id and it satisfies element_to_be_clickable (present,
displayed and enabled) at the tick of the click, so a present-but-disabled
control is never clicked; on a trace whose button stays disabled, the step
times out without clicking. -/
theorem claim_C8 :
    (∀ (w : Nat) (trace : Nat → Dom) (b : String) (t : Nat) (i : String),
        pressButtonStep w trace b = Except.ok (t, i) →
        i = buttonId b ∧ t ≤ w ∧ isClickableAt (trace t) i = true) ∧
    pressButtonStep 4 disabledButtonTrace "Clear" = Except.error StepError.timeout := by
  constructor
  · intro w trace b t i h
    unfold pressButtonStep at h
    cases hwu : waitUntil w trace (fun d => isClickableAt d (buttonId b)) with
    | none =>
      rw [hwu] at h
      exact Except.noConfusion h
    | some t0 =>
      rw [hwu] at h
      injection h with hpair
      injection hpair with ht hi
      subst ht
      subst hi
      have hts := waitUntil_some w trace (fun d => isClickableAt d (buttonId b)) t0 hwu
      exact ⟨rfl, hts.1, hts.2⟩
  · rfl

/-- Claim C8 witness: on a trace with an always-clickable clear button, the
click fires at tick 0 on the resolved id, and the theorem applied at these
concrete inputs yields clickability at the click tick. -/
theorem claim_C8_witness :
    pressButtonStep 2 clickableButtonTrace "Clear" = Except.ok (0, "clear-btn") ∧
    ("clear-btn" = buttonId "Clear" ∧ 0 ≤ 2 ∧
      isClickableAt (clickableButtonTrace 0) "clear-btn" = true) :=
  ⟨rfl, claim_C8.1 2 clickableButtonTrace "Clear" 0 "clear-btn" rfl⟩

/-- Claim C9: when the field is present, the set-field step succeeds and
leaves exactly the new value in the field (clear, then type); when the field
is absent at every tick within the budget, the step fails with
NoSuchElementException, raised already at the invocation instant because the
source step uses an immediate find_element, and never silently succeeds. -/
theorem claim_C9 :
    (∀ (s : ScnState) (n t : String) (e : Element),
        s.dom.byId (fieldId n) = some e →
        (setFieldStep s n t).err = none ∧
        valueAt (setFieldStep s n t).state.dom (fieldId n) = some t) ∧
    (∀ (trace : Nat → Dom) (clip : Option String) (n t : String) (w : Nat),
        (∀ k, k ≤ w → (trace k).byId (fieldId n) = none) →
        (setFieldStepAt trace clip n t).err = some StepError.noSuchElement) := by
  constructor
  · intro s n t e h
    constructor
    · simp [setFieldStep, h]
    · simp only [setFieldStep, h]
      exact valueAt_sendKeys_clearField s.dom (fieldId n) t e h
  · intro trace clip n t w h
    have h0 := h 0 (Nat.zero_le w)
    simp [setFieldStepAt, setFieldStep, h0]

/-- Claim C9 witness: setting the present Name field to Gadget succeeds and
the field then holds Gadget, by the theorem at concrete inputs. -/
theorem claim_C9_witness :
    s6.dom.byId (fieldId "Name") = some elem6 ∧
    ((setFieldStep s6 "Name" "Gadget").err = none ∧
      valueAt (setFieldStep s6 "Name" "Gadget").state.dom (fieldId "Name") = some "Gadget") :=
  ⟨rfl, claim_C9.1 s6 "Name" "Gadget" elem6 rfl⟩

/-- Claim C10: when paste fails because the clipboard was never written, the
target field has already been cleared before the failing clipboard read, so
the failing step does not leave the DOM unchanged. -/
theorem claim_C10 :
    ∀ (s : ScnState) (name : String) (e : Element),
      s.clipboard = none →
      s.dom.byId (fieldId name) = some e →
      (pasteFieldStep s name).err = some StepError.attributeError ∧
      valueAt (pasteFieldStep s name).state.dom (fieldId name) = some "" := by
  intro s name e hclip hb
  constructor
  · simp [pasteFieldStep, hb, hclip]
  · simp only [pasteFieldStep, hb, hclip]
    simp [valueAt, clearField, updValue, hb]

/-- Claim C10 witness: pasting into the present Name field, whose value was
Widget, with an unset clipboard fails with AttributeError and leaves the
field cleared, by the theorem at concrete inputs. -/
theorem claim_C10_witness :
    s6.clipboard = none ∧ s6.dom.byId (fieldId "Name") = some elem6 ∧
    elem6.value = "Widget" ∧
    ((pasteFieldStep s6 "Name").err = some StepError.attributeError ∧
      valueAt (pasteFieldStep s6 "Name").state.dom (fieldId "Name") = some "") :=
  ⟨rfl, rfl, rfl, claim_C10 s6 "Name" elem6 rfl rfl⟩
